import Mathlib

/-!
Shallow embedding of the bifrost bridge core: the bridge factory
(NewRainbowBridge and the per-backend constructors) and the S3 adapter
(UploadFile, UploadFolder, Config, Disconnect, IsConnected).

External collaborators (vendor SDK calls, the local filesystem) are
modelled as explicit environment records of functions, and every
filesystem / network interaction performed by an operation is recorded
in an explicit effect trace, so that "no network call occurs" style
properties are statable.
-/

/-- Closed enumeration of error-kind codes from the shared errors package. -/
inductive ErrorCode
  | badRequest
  | unauthorized
  | clientError
  | fileOperationFailed
deriving DecidableEq

/-- BifrostError: an underlying cause (rendered as its message string) plus
a stable kind code. -/
structure BifrostError where
  msg : String
  errorCode : ErrorCode
deriving DecidableEq

/-- Modelled from the spec (the BridgeConfig struct declaration lives outside
src/; its field set is fixed by the spec's Configuration record and by the
field accesses in the factory code): generic configuration record. -/
structure BridgeConfig where
  provider : String
  defaultBucket : String
  region : String
  accessKey : String
  secretKey : String
  credentialsFile : String
  project : String
  defaultTimeout : Int
  enableDebug : Bool
  publicRead : Bool
  useAsync : Bool
  pinataJWT : String
deriving DecidableEq

/-- Modelled from the spec (the providers registry lives outside src/): the
static registry of supported backend identifiers, a fixed closed set
s3 / gcs / pinata keyed by lower-case identifier. The associated display
value is not observable in any claim; the key itself stands for it. -/
def providers : List (String × String) :=
  [("s3", "s3"), ("gcs", "gcs"), ("pinata", "pinata")]

/-- Go map index `providers[k]` as an option. -/
def providersLookup (k : String) : Option String :=
  (providers.find? (fun p => p.1 == k)).map Prod.snd

/-- Go map index with its zero-value default: `providers[k]` yields "" when
k is absent. -/
def providersGet (k : String) : String :=
  (providersLookup k).getD ""

/-- Go strings.ToLower as applied to backend identifiers: per-character
lower-casing (the stdlib String.toLower is definitionally opaque to the
kernel, so the map over the character list is spelled out). -/
def strToLower (s : String) : String := ⟨s.data.map Char.toLower⟩

/-- Modelled from the spec (constant lives outside src/): the expected
concrete configuration type name checked by reflection. -/
def bridgeConfigType : String := "BridgeConfig"

/-- Result of os.Stat as observed by the code: the code only distinguishes
a definite not-exist error (os.IsNotExist) from any other outcome. -/
inductive StatResult
  | ok
  | notExist
  | otherErr
deriving DecidableEq

/-- An open local file handle, identified by the path it was opened from. -/
structure FileHandle where
  path : String
deriving DecidableEq

/-- The local filesystem as seen by UploadFile: a stat call and an open call. -/
structure FileSystem where
  stat : String → StatResult
  openF : String → Except String FileHandle

/-- Canned ACL value carried on a put request; unset when neither the
handle default nor an option sets one. -/
inductive ACL
  | unset
  | publicRead
  | priv
deriving DecidableEq

/-- s3.PutObjectInput as built by UploadFile. -/
structure PutObjectInput where
  bucket : String
  key : String
  body : FileHandle
  acl : ACL
  contentType : Option String
  metadata : Option (List (String × String))
deriving DecidableEq

/-- HeadObject output: the code reads only ContentLength and keeps the
whole object as the native metadata handle. -/
structure HeadObjectOutput where
  contentLength : Int
deriving DecidableEq

/-- The backend S3 client behaviour (PutObject and HeadObject). -/
structure Backend where
  putObject : PutObjectInput → Except String Unit
  headObject : String → String → Except String HeadObjectOutput

/-- The S3 adapter handle. The struct declaration lives outside src/; its
field set is fixed by the adapter code's field accesses (Config, UploadFile)
and the factory's composite literal. -/
structure SimpleStorageService where
  provider : String
  defaultBucket : String
  region : String
  accessKey : String
  secretKey : String
  defaultTimeout : Int
  enableDebug : Bool
  useAsync : Bool
  publicRead : Bool
  client : Option Backend

/-- types.UploadedFile result record. -/
structure UploadedFile where
  name : String
  bucket : String
  path : String
  preview : String
  size : Int
  providerObject : HeadObjectOutput
deriving DecidableEq

/-- Value in the per-upload options map (Go interface{} as observed by the
code: a string, a string-to-string map, or anything else). -/
inductive OptValue
  | str (s : String)
  | strMap (m : List (String × String))
  | other
deriving DecidableEq

/-- Modelled from the spec (constant lives outside src/): the recognized
access-control option key. -/
def OptACL : String := "acl"

/-- Modelled from the spec (constant lives outside src/): the recognized
content-type option key. -/
def OptContentType : String := "content_type"

/-- Modelled from the spec (constant lives outside src/): the public-read
grant value of the access-control option. -/
def ACLPublicRead : String := "public-read"

/-- Modelled from the spec (constant lives outside src/): the private grant
value of the access-control option. -/
def ACLPrivate : String := "private"

/-- Modelled from the spec (constant lives outside src/): the recognized
object-metadata option key. -/
def OptMetadata : String := "metadata"

/-- Modelled from the spec (format string lives outside src/): the preview
URL pattern https://{bucket}.s3.{region}.amazonaws.com/{key}, applied to
bucket, region and key in that order as in the source's Sprintf call. -/
def URLSimpleStorageService (bucket region key : String) : String :=
  "https://" ++ bucket ++ ".s3." ++ region ++ ".amazonaws.com/" ++ key

/-- Filesystem / network interactions performed by UploadFile, in order. -/
inductive Effect
  | statE (path : String)
  | openE (path : String)
  | putE (params : PutObjectInput)
  | headE (bucket key : String)
deriving DecidableEq

/-- One step of the option-configuration loop in UploadFile: a switch on
the key, with a type assertion on the value inside each recognized case;
anything unrecognized or mistyped leaves the request unchanged. -/
def applyOption (p : PutObjectInput) : String × OptValue → PutObjectInput
  | (k, v) =>
    if k == OptACL then
      match v with
      | .str s =>
        if s == ACLPublicRead then { p with acl := .publicRead }
        else if s == ACLPrivate then { p with acl := .priv }
        else p
      | _ => p
    else if k == OptContentType then
      match v with
      | .str s => { p with contentType := some s }
      | _ => p
    else if k == OptMetadata then
      match v with
      | .strMap m => { p with metadata := some m }
      | _ => p
    else p

/-- The PutObjectInput built by UploadFile: bucket is the handle's default
bucket, key the given name, body the opened file; the ACL starts from the
handle's public-read default and the option-configuration loop is then
applied in iteration order. -/
def buildParams (s : SimpleStorageService) (file : FileHandle)
    (filename : String) (options : List (String × OptValue)) : PutObjectInput :=
  options.foldl applyOption
    { bucket := s.defaultBucket
      key := filename
      body := file
      acl := if s.publicRead then .publicRead else .unset
      contentType := none
      metadata := none }

/-- The tail of UploadFile after the file is open: PutObject, then the
confirmatory HeadObject, each failure mapped to FileOperationFailed, and on
double success the populated UploadedFile. -/
def uploadPutHead (cl : Backend) (s : SimpleStorageService)
    (path filename : String) (params : PutObjectInput) :
    Except BifrostError UploadedFile × List Effect :=
  match cl.putObject params with
  | .error e =>
    (.error ⟨e, .fileOperationFailed⟩,
      [.statE path, .openE path, .putE params])
  | .ok _ =>
    match cl.headObject s.defaultBucket filename with
    | .error e =>
      (.error ⟨e, .fileOperationFailed⟩,
        [.statE path, .openE path, .putE params,
          .headE s.defaultBucket filename])
    | .ok obj =>
      (.ok { name := filename
             bucket := s.defaultBucket
             path := path
             preview := URLSimpleStorageService s.defaultBucket s.region filename
             size := obj.contentLength
             providerObject := obj },
        [.statE path, .openE path, .putE params,
          .headE s.defaultBucket filename])

/-- IsConnected: pure predicate, true iff the native client reference is
non-nil. -/
def SimpleStorageService.IsConnected (s : SimpleStorageService) : Bool :=
  s.client.isSome

/-- Disconnect: clears the native client reference and returns no error. -/
def SimpleStorageService.Disconnect (s : SimpleStorageService) : SimpleStorageService × Option BifrostError :=
  ({ s with client := none }, none)

/-- Config: snapshot of the handle's current field values in the shape of
the construction configuration; fields the source's composite literal does
not mention are Go zero values. -/
def SimpleStorageService.Config (s : SimpleStorageService) : BridgeConfig :=
  { provider := s.provider
    defaultBucket := s.defaultBucket
    region := s.region
    accessKey := s.accessKey
    secretKey := s.secretKey
    defaultTimeout := s.defaultTimeout
    enableDebug := s.enableDebug
    useAsync := s.useAsync
    credentialsFile := ""
    project := ""
    publicRead := false
    pinataJWT := "" }

/-- UploadFile on the S3 adapter: connectivity check, stat, open, option
resolution, PutObject, then a confirmatory HeadObject. Returns the Go
(result, error) pair as an Except, together with the ordered trace of
filesystem and network interactions it performed. -/
def SimpleStorageService.UploadFile (s : SimpleStorageService) (fs : FileSystem)
    (path filename : String) (options : List (String × OptValue)) :
    Except BifrostError UploadedFile × List Effect :=
  match s.client with
  | none => (.error ⟨"no active S3 client", .clientError⟩, [])
  | some cl =>
    if fs.stat path == .notExist then
      (.error ⟨"file does not exist: " ++ path, .badRequest⟩, [.statE path])
    else
      match fs.openF path with
      | .error e =>
        (.error ⟨e, .fileOperationFailed⟩, [.statE path, .openE path])
      | .ok file =>
        uploadPutHead cl s path filename (buildParams s file filename options)

/-- UploadFolder: unimplemented stub, returns no result and no error. -/
def SimpleStorageService.UploadFolder (_s : SimpleStorageService) (_path : String)
    (_options : List (String × OptValue)) :
    Option (List UploadedFile) × Option BifrostError :=
  (none, none)

/-- An opaque GCS native client value produced by the vendor SDK. -/
structure GCSClient where
  id : Nat
deriving DecidableEq

/-- An opaque AWS configuration value produced by the vendor SDK. -/
structure AWSConfig where
  id : Nat
deriving DecidableEq

/-- The GCS adapter handle, as populated by the factory's composite literal. -/
structure GoogleCloudStorage where
  provider : String
  defaultBucket : String
  credentialsFile : String
  project : String
  defaultTimeout : Int
  client : Option GCSClient
  enableDebug : Bool
  publicRead : Bool
  useAsync : Bool
deriving DecidableEq

/-- The Pinata adapter handle, as populated by the factory's composite
literal. -/
structure PinataIPFSStorage where
  pinataJWT : String
  provider : String
  defaultBucket : String
  credentialsFile : String
  project : String
  defaultTimeout : Int
  enableDebug : Bool
  publicRead : Bool
  useAsync : Bool
deriving DecidableEq

/-- The polymorphic bridge handle returned by the factory. -/
inductive Bridge
  | s3Handle (h : SimpleStorageService)
  | gcsHandle (h : GoogleCloudStorage)
  | pinataHandle (h : PinataIPFSStorage)

/-- Network-reaching vendor SDK interactions performed during bridge
construction, in order. -/
inductive CEffect
  | awsLoadConfig
  | gcsNewClient
deriving DecidableEq

/-- The vendor SDK environment used during construction: AWS shared-config
loading (with static credentials scoped to a region, or ambient) and GCS
client creation (with a credentials file, or ambient). -/
structure ConstructEnv where
  awsLoadConfigStatic : String → String → String → Except String AWSConfig
  awsLoadConfigShared : Except String AWSConfig
  s3NewFromConfig : AWSConfig → Backend
  gcsNewClientWithCreds : String → Except String GCSClient
  gcsNewClientAmbient : Except String GCSClient

/-- newSimpleStorageService: builds an AWS session (static credentials when
both keys are present, else the shared ambient configuration) and populates
the S3 handle. DefaultTimeout, EnableDebug and UseAsync are absent from the
source's composite literal, so they take Go zero values. -/
def newSimpleStorageService (env : ConstructEnv) (g : BridgeConfig) :
    Except BifrostError Bridge × List CEffect :=
  if g.accessKey != "" && g.secretKey != "" then
    match env.awsLoadConfigStatic g.accessKey g.secretKey g.region with
    | .error e => (.error ⟨e, .unauthorized⟩, [.awsLoadConfig])
    | .ok cfg =>
      (.ok (.s3Handle
        { provider := providersGet (strToLower g.provider)
          defaultBucket := g.defaultBucket
          region := g.region
          publicRead := g.publicRead
          secretKey := g.secretKey
          accessKey := g.accessKey
          defaultTimeout := 0
          enableDebug := false
          useAsync := false
          client := some (env.s3NewFromConfig cfg) }), [.awsLoadConfig])
  else
    match env.awsLoadConfigShared with
    | .error e => (.error ⟨e, .unauthorized⟩, [.awsLoadConfig])
    | .ok cfg =>
      (.ok (.s3Handle
        { provider := providersGet (strToLower g.provider)
          defaultBucket := g.defaultBucket
          region := g.region
          publicRead := g.publicRead
          secretKey := g.secretKey
          accessKey := g.accessKey
          defaultTimeout := 0
          enableDebug := false
          useAsync := false
          client := some (env.s3NewFromConfig cfg) }), [.awsLoadConfig])

/-- newGoogleCloudStorage: authenticates with the credentials file when one
is given, else ambiently; failure is Unauthorized. -/
def newGoogleCloudStorage (env : ConstructEnv) (g : BridgeConfig) :
    Except BifrostError Bridge × List CEffect :=
  if g.credentialsFile != "" then
    match env.gcsNewClientWithCreds g.credentialsFile with
    | .error e => (.error ⟨e, .unauthorized⟩, [.gcsNewClient])
    | .ok client =>
      (.ok (.gcsHandle
        { provider := providersGet (strToLower g.provider)
          defaultBucket := g.defaultBucket
          credentialsFile := g.credentialsFile
          project := g.project
          defaultTimeout := g.defaultTimeout
          client := some client
          enableDebug := g.enableDebug
          publicRead := g.publicRead
          useAsync := g.useAsync }), [.gcsNewClient])
  else
    match env.gcsNewClientAmbient with
    | .error e => (.error ⟨e, .unauthorized⟩, [.gcsNewClient])
    | .ok client =>
      (.ok (.gcsHandle
        { provider := providersGet (strToLower g.provider)
          defaultBucket := g.defaultBucket
          credentialsFile := g.credentialsFile
          project := g.project
          defaultTimeout := g.defaultTimeout
          client := some client
          enableDebug := g.enableDebug
          publicRead := g.publicRead
          useAsync := g.useAsync }), [.gcsNewClient])

/-- newPinataIPFS: requires the bearer token; with it, populates the handle
directly with no vendor SDK call. -/
def newPinataIPFS (g : BridgeConfig) :
    Except BifrostError Bridge × List CEffect :=
  if g.pinataJWT == "" then
    (.error ⟨"jwt is required for authentication", .unauthorized⟩, [])
  else
    (.ok (.pinataHandle
      { pinataJWT := g.pinataJWT
        provider := providersGet (strToLower g.provider)
        defaultBucket := g.defaultBucket
        credentialsFile := g.credentialsFile
        project := g.project
        defaultTimeout := g.defaultTimeout
        enableDebug := g.enableDebug
        publicRead := g.publicRead
        useAsync := g.useAsync }), [])

/-- The configuration reference as the factory's reflection sees it: the
reflect kind of the pointed-to value (rendered as a string) and the concrete
type name, alongside the value itself. -/
structure ReflectedConfig where
  kind : String
  typeName : String
  value : BridgeConfig

/-- NewRainbowBridge: validation sequence (nil reference, reflect kind,
concrete type name, non-empty provider, registry lookup on the lower-cased
provider), an optional debug warning for an empty bucket (no state change),
then the dispatch switch on the raw provider string. -/
def NewRainbowBridge (env : ConstructEnv) (rc : Option ReflectedConfig) :
    Except BifrostError Bridge × List CEffect :=
  match rc with
  | none => (.error ⟨"config is nil", .badRequest⟩, [])
  | some r =>
    if r.kind != "struct" then
      (.error ⟨"invalid config type: " ++ r.kind, .badRequest⟩, [])
    else if r.typeName != bridgeConfigType then
      (.error ⟨"invalid config type: " ++ r.typeName, .badRequest⟩, [])
    else
      let bc := r.value
      if bc.provider == "" then
        (.error ⟨"no provider specified", .badRequest⟩, [])
      else if (providersLookup (strToLower bc.provider)).isNone then
        (.error ⟨"invalid provider: " ++ bc.provider, .badRequest⟩, [])
      else if bc.provider == "s3" then newSimpleStorageService env bc
      else if bc.provider == "gcs" then newGoogleCloudStorage env bc
      else if bc.provider == "pinata" then newPinataIPFS bc
      else (.error ⟨"invalid provider: " ++ bc.provider, .badRequest⟩, [])

/-- A fake backend that accepts every write and reports size 1024 on the
confirmatory read. -/
def okBackend : Backend :=
  { putObject := fun _ => .ok ()
    headObject := fun _ _ => .ok ⟨1024⟩ }

/-- A vendor SDK environment in which every authentication step succeeds
and every created S3 client is the accepting fake backend. -/
def envOK : ConstructEnv :=
  { awsLoadConfigStatic := fun _ _ _ => .ok ⟨1⟩
    awsLoadConfigShared := .ok ⟨2⟩
    s3NewFromConfig := fun _ => okBackend
    gcsNewClientWithCreds := fun _ => .ok ⟨1⟩
    gcsNewClientAmbient := .ok ⟨2⟩ }

/-- Baseline s3 configuration from the spec's end-to-end scenario. -/
def cfgBase : BridgeConfig :=
  { provider := "s3"
    defaultBucket := "assets"
    region := "us-east-1"
    accessKey := "A"
    secretKey := "B"
    credentialsFile := ""
    project := ""
    defaultTimeout := 0
    enableDebug := false
    publicRead := false
    useAsync := false
    pinataJWT := "" }

/-- The baseline configuration with an upper-cased backend identifier. -/
def cfgS3Upper : BridgeConfig := { cfgBase with provider := "S3" }

/-- The baseline configuration with timeout, debug and async set. -/
def cfgS3Timeout : BridgeConfig :=
  { cfgBase with defaultTimeout := 5, enableDebug := true, useAsync := true }

/-- A connected sample S3 adapter handle over the accepting fake backend. -/
def s3Sample : SimpleStorageService :=
  { provider := "s3"
    defaultBucket := "assets"
    region := "us-east-1"
    accessKey := "A"
    secretKey := "B"
    defaultTimeout := 0
    enableDebug := false
    useAsync := false
    publicRead := false
    client := some okBackend }

/-- The sample handle with the public-read default set. -/
def s3SamplePub : SimpleStorageService := { s3Sample with publicRead := true }

/-- A filesystem on which every path exists and opens. -/
def fsGood : FileSystem :=
  { stat := fun _ => .ok
    openF := fun p => .ok ⟨p⟩ }

/-- A filesystem on which every stat reports a definite not-exist. -/
def fsMissing : FileSystem :=
  { stat := fun _ => .notExist
    openF := fun p => .ok ⟨p⟩ }

/-- A filesystem on which stat fails for a reason other than not-exist and
open fails as well. -/
def fsDenied : FileSystem :=
  { stat := fun _ => .otherErr
    openF := fun _ => .error "permission denied" }

/-- C9: Disconnect is idempotent and always succeeds: calling it once or
twice returns no error both times, IsConnected is false after either call,
and IsConnected is a pure predicate true exactly when the native client
reference is non-nil. -/
theorem C9_disconnect_idempotent (s : SimpleStorageService) :
    (s.Disconnect).2 = none ∧
    ((s.Disconnect).1.Disconnect).2 = none ∧
    (s.Disconnect).1.IsConnected = false ∧
    ((s.Disconnect).1.Disconnect).1.IsConnected = false ∧
    (∀ t : SimpleStorageService, t.IsConnected = true ↔ t.client ≠ none) := by
  refine ⟨rfl, rfl, rfl, rfl, fun t => ?_⟩
  simp [SimpleStorageService.IsConnected, Option.isSome_iff_ne_none]

/-- C3 counterexample: on a disconnected handle, UploadFolder returns no
error at all, hence not an error of kind ClientError. -/
theorem C3_counterexample :
    (s3Sample.Disconnect).1.IsConnected = false ∧
    ((s3Sample.Disconnect).1.UploadFolder "/tmp/folder" []).2 = none := by
  exact ⟨rfl, rfl⟩

/-- C3 amended: on a disconnected handle, Upload returns a ClientError
error, while UploadFolder (the unimplemented stub) returns no result and no
error. -/
theorem C3_amended_disconnected_ops (s : SimpleStorageService)
    (fs : FileSystem) (path filename : String)
    (options : List (String × OptValue)) :
    ((s.Disconnect).1.UploadFile fs path filename options).1 =
      .error ⟨"no active S3 client", .clientError⟩ ∧
    (s.Disconnect).1.UploadFolder path options = (none, none) := by
  exact ⟨rfl, rfl⟩

/-- C1: the registry check accepts the identifier "S3" case-insensitively,
yet the final dispatch switch compares the raw identifier case-sensitively
and returns a BadRequest error for it instead of dispatching to the S3
constructor. -/
theorem C1_mixed_case_dispatch_returns_bad_request :
    (providersLookup (strToLower "S3")).isSome = true ∧
    NewRainbowBridge envOK (some ⟨"struct", bridgeConfigType, cfgS3Upper⟩) =
      (.error ⟨"invalid provider: S3", .badRequest⟩, []) := by
  exact ⟨rfl, rfl⟩

/-- C2: Construct on a valid s3 configuration yields a handle holding the
configuration's bucket, region and credentials, but the source's composite
literal omits DefaultTimeout, EnableDebug and UseAsync, so the handle (and
hence the Config() snapshot) carries zero values for them regardless of the
configuration: with defaultTimeout 5, enableDebug true and useAsync true
requested, the handle and its snapshot report 0, false and false. -/
theorem C2_constructor_drops_timeout_debug_async :
    ∃ h : SimpleStorageService,
      (NewRainbowBridge envOK (some ⟨"struct", bridgeConfigType, cfgS3Timeout⟩)).1 =
        .ok (.s3Handle h) ∧
      h.defaultBucket = cfgS3Timeout.defaultBucket ∧
      h.region = cfgS3Timeout.region ∧
      h.accessKey = cfgS3Timeout.accessKey ∧
      h.secretKey = cfgS3Timeout.secretKey ∧
      h.publicRead = cfgS3Timeout.publicRead ∧
      cfgS3Timeout.defaultTimeout = 5 ∧
      cfgS3Timeout.enableDebug = true ∧
      cfgS3Timeout.useAsync = true ∧
      h.defaultTimeout = 0 ∧
      h.enableDebug = false ∧
      h.useAsync = false ∧
      h.Config.defaultTimeout = 0 ∧
      h.Config.enableDebug = false ∧
      h.Config.useAsync = false := by
  exact ⟨_, rfl, rfl, rfl, rfl, rfl, rfl, rfl, rfl, rfl, rfl, rfl, rfl, rfl, rfl, rfl⟩

/-- C7: Construct's validation sequence is terminal at each step and
produces no handle on failure: a nil configuration reference, a
configuration whose reflect kind is not struct, a configuration whose
concrete type name is not BridgeConfig, an empty backend identifier, and a
backend identifier whose lower-cased form is absent from the registry each
yield a BadRequest error and no handle. -/
theorem C7_validation_sequence_terminal (env : ConstructEnv) :
    (NewRainbowBridge env none = (.error ⟨"config is nil", .badRequest⟩, [])) ∧
    (∀ r : ReflectedConfig, r.kind ≠ "struct" →
      NewRainbowBridge env (some r) =
        (.error ⟨"invalid config type: " ++ r.kind, .badRequest⟩, [])) ∧
    (∀ r : ReflectedConfig, r.kind = "struct" → r.typeName ≠ bridgeConfigType →
      NewRainbowBridge env (some r) =
        (.error ⟨"invalid config type: " ++ r.typeName, .badRequest⟩, [])) ∧
    (∀ r : ReflectedConfig, r.kind = "struct" → r.typeName = bridgeConfigType →
      r.value.provider = "" →
      NewRainbowBridge env (some r) =
        (.error ⟨"no provider specified", .badRequest⟩, [])) ∧
    (∀ r : ReflectedConfig, r.kind = "struct" → r.typeName = bridgeConfigType →
      r.value.provider ≠ "" →
      providersLookup (strToLower r.value.provider) = none →
      NewRainbowBridge env (some r) =
        (.error ⟨"invalid provider: " ++ r.value.provider, .badRequest⟩, [])) := by
  refine ⟨rfl, ?_, ?_, ?_, ?_⟩
  · intro r h
    simp [NewRainbowBridge, h]
  · intro r h1 h2
    simp [NewRainbowBridge, h1, h2]
  · intro r h1 h2 h3
    simp [NewRainbowBridge, h1, h2, h3]
  · intro r h1 h2 h3 h4
    simp [NewRainbowBridge, h1, h2, h3, h4]

/-- C7 witness: the five failure shapes at concrete inputs. -/
theorem C7_validation_sequence_terminal_witness :
    NewRainbowBridge envOK none = (.error ⟨"config is nil", .badRequest⟩, []) ∧
    NewRainbowBridge envOK (some ⟨"ptr", bridgeConfigType, cfgBase⟩) =
      (.error ⟨"invalid config type: ptr", .badRequest⟩, []) ∧
    NewRainbowBridge envOK (some ⟨"struct", "FooConfig", cfgBase⟩) =
      (.error ⟨"invalid config type: FooConfig", .badRequest⟩, []) ∧
    NewRainbowBridge envOK
        (some ⟨"struct", bridgeConfigType, { cfgBase with provider := "" }⟩) =
      (.error ⟨"no provider specified", .badRequest⟩, []) ∧
    NewRainbowBridge envOK
        (some ⟨"struct", bridgeConfigType, { cfgBase with provider := "azure" }⟩) =
      (.error ⟨"invalid provider: azure", .badRequest⟩, []) := by
  refine ⟨(C7_validation_sequence_terminal envOK).1, ?_, ?_, ?_, ?_⟩
  · exact (C7_validation_sequence_terminal envOK).2.1 _ (by decide)
  · exact (C7_validation_sequence_terminal envOK).2.2.1 _ rfl (by decide)
  · exact (C7_validation_sequence_terminal envOK).2.2.2.1 _ rfl rfl rfl
  · exact (C7_validation_sequence_terminal envOK).2.2.2.2 _ rfl rfl (by decide) rfl

/-- C8: a pinata configuration with an empty bearer token yields an
Unauthorized error, no handle, and an empty construction effect trace (no
network call); with a non-empty token the constructor returns the populated
pinata handle, again with an empty effect trace and so no authentication
network call. -/
theorem C8_pinata_token_required (env : ConstructEnv) (bc : BridgeConfig)
    (hp : bc.provider = "pinata") :
    (bc.pinataJWT = "" →
      NewRainbowBridge env (some ⟨"struct", bridgeConfigType, bc⟩) =
        (.error ⟨"jwt is required for authentication", .unauthorized⟩, [])) ∧
    (bc.pinataJWT ≠ "" →
      NewRainbowBridge env (some ⟨"struct", bridgeConfigType, bc⟩) =
        (.ok (.pinataHandle
          { pinataJWT := bc.pinataJWT
            provider := providersGet (strToLower bc.provider)
            defaultBucket := bc.defaultBucket
            credentialsFile := bc.credentialsFile
            project := bc.project
            defaultTimeout := bc.defaultTimeout
            enableDebug := bc.enableDebug
            publicRead := bc.publicRead
            useAsync := bc.useAsync }), [])) := by
  have h1 : strToLower "pinata" = "pinata" := rfl
  have h2 : providersLookup "pinata" = some "pinata" := rfl
  constructor
  · intro hj
    simp [NewRainbowBridge, newPinataIPFS, hp, h1, h2, hj]
  · intro hj
    simp [NewRainbowBridge, newPinataIPFS, hp, h1, h2, hj]

/-- C8 witness: concrete pinata configurations with and without a token. -/
theorem C8_pinata_token_required_witness :
    NewRainbowBridge envOK
        (some ⟨"struct", bridgeConfigType, { cfgBase with provider := "pinata" }⟩) =
      (.error ⟨"jwt is required for authentication", .unauthorized⟩, []) ∧
    NewRainbowBridge envOK
        (some ⟨"struct", bridgeConfigType,
          { cfgBase with provider := "pinata", pinataJWT := "tok" }⟩) =
      (.ok (.pinataHandle
        { pinataJWT := "tok"
          provider := "pinata"
          defaultBucket := "assets"
          credentialsFile := ""
          project := ""
          defaultTimeout := 0
          enableDebug := false
          publicRead := false
          useAsync := false }), []) := by
  constructor
  · exact (C8_pinata_token_required envOK _ rfl).1 rfl
  · exact (C8_pinata_token_required envOK _ rfl).2 (by decide)

theorem uploadFile_disconnected (s : SimpleStorageService) (fs : FileSystem)
    (path filename : String) (options : List (String × OptValue))
    (hc : s.client = none) :
    s.UploadFile fs path filename options =
      (.error ⟨"no active S3 client", .clientError⟩, []) := by
  simp [SimpleStorageService.UploadFile, hc]

theorem uploadFile_statNotExist (s : SimpleStorageService) (cl : Backend)
    (fs : FileSystem) (path filename : String)
    (options : List (String × OptValue))
    (hc : s.client = some cl) (hstat : fs.stat path = .notExist) :
    s.UploadFile fs path filename options =
      (.error ⟨"file does not exist: " ++ path, .badRequest⟩, [.statE path]) := by
  simp [SimpleStorageService.UploadFile, hc, hstat]

theorem uploadFile_openError (s : SimpleStorageService) (cl : Backend)
    (fs : FileSystem) (path filename : String)
    (options : List (String × OptValue)) (msg : String)
    (hc : s.client = some cl) (hstat : fs.stat path ≠ .notExist)
    (hopen : fs.openF path = .error msg) :
    s.UploadFile fs path filename options =
      (.error ⟨msg, .fileOperationFailed⟩, [.statE path, .openE path]) := by
  simp [SimpleStorageService.UploadFile, hc, hstat, hopen]

theorem uploadFile_eval_open (s : SimpleStorageService) (cl : Backend)
    (fs : FileSystem) (path filename : String)
    (options : List (String × OptValue)) (file : FileHandle)
    (hc : s.client = some cl) (hstat : fs.stat path ≠ .notExist)
    (hopen : fs.openF path = .ok file) :
    s.UploadFile fs path filename options =
      uploadPutHead cl s path filename (buildParams s file filename options) := by
  simp [SimpleStorageService.UploadFile, hc, hstat, hopen]

theorem putHead_putError (cl : Backend) (s : SimpleStorageService)
    (path filename : String) (params : PutObjectInput) (msg : String)
    (hput : cl.putObject params = .error msg) :
    uploadPutHead cl s path filename params =
      (.error ⟨msg, .fileOperationFailed⟩,
        [.statE path, .openE path, .putE params]) := by
  simp [uploadPutHead, hput]

theorem putHead_headError (cl : Backend) (s : SimpleStorageService)
    (path filename : String) (params : PutObjectInput) (msg : String)
    (hput : cl.putObject params = .ok ())
    (hhead : cl.headObject s.defaultBucket filename = .error msg) :
    uploadPutHead cl s path filename params =
      (.error ⟨msg, .fileOperationFailed⟩,
        [.statE path, .openE path, .putE params,
          .headE s.defaultBucket filename]) := by
  simp [uploadPutHead, hput, hhead]

theorem putHead_success (cl : Backend) (s : SimpleStorageService)
    (path filename : String) (params : PutObjectInput) (obj : HeadObjectOutput)
    (hput : cl.putObject params = .ok ())
    (hhead : cl.headObject s.defaultBucket filename = .ok obj) :
    uploadPutHead cl s path filename params =
      (.ok { name := filename
             bucket := s.defaultBucket
             path := path
             preview := URLSimpleStorageService s.defaultBucket s.region filename
             size := obj.contentLength
             providerObject := obj },
        [.statE path, .openE path, .putE params,
          .headE s.defaultBucket filename]) := by
  simp [uploadPutHead, hput, hhead]

theorem putHead_issues_put (cl : Backend) (s : SimpleStorageService)
    (path filename : String) (params : PutObjectInput) :
    Effect.putE params ∈ (uploadPutHead cl s path filename params).2 := by
  cases hput : cl.putObject params with
  | error msg => rw [putHead_putError cl s path filename params msg hput]; simp
  | ok u =>
    cases u
    cases hhead : cl.headObject s.defaultBucket filename with
    | error msg => rw [putHead_headError cl s path filename params msg hput hhead]; simp
    | ok obj => rw [putHead_success cl s path filename params obj hput hhead]; simp

theorem putHead_errorCode_fof (cl : Backend) (s : SimpleStorageService)
    (path filename : String) (params : PutObjectInput) (e : BifrostError)
    (he : (uploadPutHead cl s path filename params).1 = .error e) :
    e.errorCode = .fileOperationFailed := by
  cases hput : cl.putObject params with
  | error msg =>
    rw [putHead_putError cl s path filename params msg hput] at he
    cases he
    rfl
  | ok u =>
    cases u
    cases hhead : cl.headObject s.defaultBucket filename with
    | error msg =>
      rw [putHead_headError cl s path filename params msg hput hhead] at he
      cases he
      rfl
    | ok obj =>
      rw [putHead_success cl s path filename params obj hput hhead] at he
      cases he

/-- C4: Upload checks its preconditions in order, first failure winning: a
disconnected handle yields ClientError with an empty effect trace (no
filesystem or network access); a connected handle whose stat reports a
definite not-exist yields BadRequest with only the stat performed (no
network call); an existing but unopenable source path yields
FileOperationFailed with only stat and open performed. -/
theorem C4_upload_preconditions_in_order (s : SimpleStorageService)
    (fs : FileSystem) (path filename : String)
    (options : List (String × OptValue)) :
    (s.IsConnected = false →
      s.UploadFile fs path filename options =
        (.error ⟨"no active S3 client", .clientError⟩, [])) ∧
    (s.IsConnected = true → fs.stat path = .notExist →
      s.UploadFile fs path filename options =
        (.error ⟨"file does not exist: " ++ path, .badRequest⟩,
          [.statE path])) ∧
    (s.IsConnected = true → fs.stat path ≠ .notExist →
      ∀ msg, fs.openF path = .error msg →
        s.UploadFile fs path filename options =
          (.error ⟨msg, .fileOperationFailed⟩,
            [.statE path, .openE path])) := by
  cases hc : s.client with
  | none =>
    refine ⟨fun _ => uploadFile_disconnected s fs path filename options hc,
      fun h _ => ?_, fun h _ _ _ => ?_⟩ <;>
      simp [SimpleStorageService.IsConnected, hc] at h
  | some cl =>
    refine ⟨fun h => ?_,
      fun _ hstat => uploadFile_statNotExist s cl fs path filename options hc hstat,
      fun _ hstat msg hopen =>
        uploadFile_openError s cl fs path filename options msg hc hstat hopen⟩
    simp [SimpleStorageService.IsConnected, hc] at h

/-- C4 witness: the three precondition failures at concrete inputs. -/
theorem C4_upload_preconditions_in_order_witness :
    (s3Sample.Disconnect).1.UploadFile fsGood "/tmp/a.txt" "a.txt" [] =
      (.error ⟨"no active S3 client", .clientError⟩, []) ∧
    s3Sample.UploadFile fsMissing "/tmp/a.txt" "a.txt" [] =
      (.error ⟨"file does not exist: /tmp/a.txt", .badRequest⟩,
        [.statE "/tmp/a.txt"]) ∧
    s3Sample.UploadFile fsDenied "/tmp/a.txt" "a.txt" [] =
      (.error ⟨"permission denied", .fileOperationFailed⟩,
        [.statE "/tmp/a.txt", .openE "/tmp/a.txt"]) := by
  refine ⟨?_, ?_, ?_⟩
  · exact (C4_upload_preconditions_in_order (s3Sample.Disconnect).1 fsGood
      "/tmp/a.txt" "a.txt" []).1 rfl
  · exact (C4_upload_preconditions_in_order s3Sample fsMissing
      "/tmp/a.txt" "a.txt" []).2.1 rfl rfl
  · exact (C4_upload_preconditions_in_order s3Sample fsDenied
      "/tmp/a.txt" "a.txt" []).2.2 rfl (by decide) "permission denied" rfl

/-- C10: a stat failure other than a definite not-exist does not produce
BadRequest: Upload proceeds to the open step (the open interaction appears
in the trace, and no result of the call carries BadRequest), and when the
open then fails the result is FileOperationFailed from the open step. -/
theorem C10_stat_other_error_proceeds_to_open (s : SimpleStorageService)
    (cl : Backend) (fs : FileSystem) (path filename : String)
    (options : List (String × OptValue))
    (hc : s.client = some cl) (hstat : fs.stat path = .otherErr) :
    (∀ e, (s.UploadFile fs path filename options).1 = .error e →
      e.errorCode ≠ .badRequest) ∧
    Effect.openE path ∈ (s.UploadFile fs path filename options).2 ∧
    (∀ msg, fs.openF path = .error msg →
      s.UploadFile fs path filename options =
        (.error ⟨msg, .fileOperationFailed⟩,
          [.statE path, .openE path])) := by
  have hne : fs.stat path ≠ .notExist := by rw [hstat]; intro h; cases h
  cases hopen : fs.openF path with
  | error msg =>
    rw [uploadFile_openError s cl fs path filename options msg hc hne hopen]
    refine ⟨?_, ?_, ?_⟩
    · intro e he
      cases he
      intro h
      cases h
    · simp
    · intro msg2 hopen2
      cases hopen2
      rfl
  | ok file =>
    rw [uploadFile_eval_open s cl fs path filename options file hc hne hopen]
    refine ⟨?_, ?_, ?_⟩
    · intro e he
      rw [putHead_errorCode_fof cl s path filename
        (buildParams s file filename options) e he]
      intro h
      cases h
    · cases hput : cl.putObject (buildParams s file filename options) with
      | error msg =>
        rw [putHead_putError cl s path filename _ msg hput]; simp
      | ok u =>
        cases u
        cases hhead : cl.headObject s.defaultBucket filename with
        | error msg =>
          rw [putHead_headError cl s path filename _ msg hput hhead]; simp
        | ok obj =>
          rw [putHead_success cl s path filename _ obj hput hhead]; simp
    · intro msg2 hopen2
      cases hopen2

/-- C10 witness: a filesystem whose stat fails with a non-not-exist error
and whose open fails. -/
theorem C10_stat_other_error_proceeds_to_open_witness :
    Effect.openE "/tmp/b.txt" ∈
      (s3Sample.UploadFile fsDenied "/tmp/b.txt" "b.txt" []).2 ∧
    s3Sample.UploadFile fsDenied "/tmp/b.txt" "b.txt" [] =
      (.error ⟨"permission denied", .fileOperationFailed⟩,
        [.statE "/tmp/b.txt", .openE "/tmp/b.txt"]) := by
  constructor
  · exact (C10_stat_other_error_proceeds_to_open s3Sample okBackend fsDenied
      "/tmp/b.txt" "b.txt" [] rfl rfl).2.1
  · exact (C10_stat_other_error_proceeds_to_open s3Sample okBackend fsDenied
      "/tmp/b.txt" "b.txt" [] rfl rfl).2.2 "permission denied" rfl

/-- C5: no partial-success state once the preconditions pass: an
UploadedFile is returned exactly when both PutObject and the confirmatory
HeadObject succeed, populated with name the given key, bucket the handle's
default bucket, path the given source path, size the size reported by
HeadObject, and preview https://{bucket}.s3.{region}.amazonaws.com/{key};
when either backend call fails the result is an error of kind
FileOperationFailed and no UploadedFile. -/
theorem C5_no_partial_success (s : SimpleStorageService) (cl : Backend)
    (fs : FileSystem) (path filename : String)
    (options : List (String × OptValue)) (file : FileHandle)
    (hc : s.client = some cl) (hstat : fs.stat path ≠ .notExist)
    (hopen : fs.openF path = .ok file) :
    (∀ u, (s.UploadFile fs path filename options).1 = .ok u →
      cl.putObject (buildParams s file filename options) = .ok () ∧
      ∃ obj, cl.headObject s.defaultBucket filename = .ok obj ∧
        u = { name := filename
              bucket := s.defaultBucket
              path := path
              preview := URLSimpleStorageService s.defaultBucket s.region filename
              size := obj.contentLength
              providerObject := obj }) ∧
    (∀ msg, cl.putObject (buildParams s file filename options) = .error msg →
      s.UploadFile fs path filename options =
        (.error ⟨msg, .fileOperationFailed⟩,
          [.statE path, .openE path,
            .putE (buildParams s file filename options)])) ∧
    (∀ msg, cl.putObject (buildParams s file filename options) = .ok () →
      cl.headObject s.defaultBucket filename = .error msg →
      s.UploadFile fs path filename options =
        (.error ⟨msg, .fileOperationFailed⟩,
          [.statE path, .openE path,
            .putE (buildParams s file filename options),
            .headE s.defaultBucket filename])) ∧
    (∀ obj, cl.putObject (buildParams s file filename options) = .ok () →
      cl.headObject s.defaultBucket filename = .ok obj →
      s.UploadFile fs path filename options =
        (.ok { name := filename
               bucket := s.defaultBucket
               path := path
               preview := URLSimpleStorageService s.defaultBucket s.region filename
               size := obj.contentLength
               providerObject := obj },
          [.statE path, .openE path,
            .putE (buildParams s file filename options),
            .headE s.defaultBucket filename])) := by
  have heval := uploadFile_eval_open s cl fs path filename options file hc hstat hopen
  refine ⟨?_, ?_, ?_, ?_⟩
  · intro u hu
    rw [heval] at hu
    cases hput : cl.putObject (buildParams s file filename options) with
    | error msg =>
      rw [putHead_putError cl s path filename _ msg hput] at hu
      cases hu
    | ok v =>
      cases v
      refine ⟨rfl, ?_⟩
      cases hhead : cl.headObject s.defaultBucket filename with
      | error msg =>
        rw [putHead_headError cl s path filename _ msg hput hhead] at hu
        cases hu
      | ok obj =>
        rw [putHead_success cl s path filename _ obj hput hhead] at hu
        cases hu
        exact ⟨obj, rfl, rfl⟩
  · intro msg hput
    rw [heval, putHead_putError cl s path filename _ msg hput]
  · intro msg hput hhead
    rw [heval, putHead_headError cl s path filename _ msg hput hhead]
  · intro obj hput hhead
    rw [heval, putHead_success cl s path filename _ obj hput hhead]

/-- C5 witness: the spec's end-to-end scenario against the accepting fake
backend that reports size 1024, with the preview URL spelled out as the
literal string. -/
theorem C5_no_partial_success_witness :
    s3Sample.UploadFile fsGood "/tmp/photo.png" "photo.png" [] =
      (.ok { name := "photo.png"
             bucket := "assets"
             path := "/tmp/photo.png"
             preview := URLSimpleStorageService "assets" "us-east-1" "photo.png"
             size := 1024
             providerObject := ⟨1024⟩ },
        [.statE "/tmp/photo.png", .openE "/tmp/photo.png",
          .putE (buildParams s3Sample ⟨"/tmp/photo.png"⟩ "photo.png" []),
          .headE "assets" "photo.png"]) ∧
    URLSimpleStorageService "assets" "us-east-1" "photo.png" =
      "https://assets.s3.us-east-1.amazonaws.com/photo.png" := by
  constructor
  · exact (C5_no_partial_success s3Sample okBackend fsGood "/tmp/photo.png"
      "photo.png" [] ⟨"/tmp/photo.png"⟩ rfl (by decide) rfl).2.2.2 ⟨1024⟩ rfl rfl
  · rfl

/-- C6: option resolution in Upload: the access-control grant of the issued
put request starts from the handle's public-read default (public-read when
set, unset otherwise) and an explicit recognized access-control option
overrides it in both directions (default true with option private yields
private, default false with option public-read yields public), the request
so resolved being the one actually issued; unrecognized option keys, and
type-mismatched values for recognized keys, leave the call's outcome
entirely unchanged (silently ignored, no error). -/
theorem C6_option_resolution (s : SimpleStorageService) (cl : Backend)
    (fs : FileSystem) (path filename : String) (file : FileHandle)
    (hc : s.client = some cl) (hstat : fs.stat path ≠ .notExist)
    (hopen : fs.openF path = .ok file) :
    ((buildParams s file filename []).acl =
      (if s.publicRead then ACL.publicRead else ACL.unset)) ∧
    (s.publicRead = true →
      (buildParams s file filename [(OptACL, OptValue.str ACLPrivate)]).acl =
        ACL.priv ∧
      Effect.putE (buildParams s file filename [(OptACL, OptValue.str ACLPrivate)]) ∈
        (s.UploadFile fs path filename [(OptACL, OptValue.str ACLPrivate)]).2) ∧
    (s.publicRead = false →
      (buildParams s file filename [(OptACL, OptValue.str ACLPublicRead)]).acl =
        ACL.publicRead ∧
      Effect.putE (buildParams s file filename [(OptACL, OptValue.str ACLPublicRead)]) ∈
        (s.UploadFile fs path filename [(OptACL, OptValue.str ACLPublicRead)]).2) ∧
    (∀ k v, k ≠ OptACL → k ≠ OptContentType → k ≠ OptMetadata →
      s.UploadFile fs path filename [(k, v)] =
        s.UploadFile fs path filename []) ∧
    (∀ m : List (String × String),
      s.UploadFile fs path filename [(OptACL, OptValue.strMap m)] =
        s.UploadFile fs path filename [] ∧
      s.UploadFile fs path filename [(OptContentType, OptValue.strMap m)] =
        s.UploadFile fs path filename [] ∧
      s.UploadFile fs path filename [(OptACL, OptValue.other)] =
        s.UploadFile fs path filename [] ∧
      s.UploadFile fs path filename [(OptContentType, OptValue.other)] =
        s.UploadFile fs path filename [] ∧
      s.UploadFile fs path filename [(OptMetadata, OptValue.other)] =
        s.UploadFile fs path filename []) ∧
    (∀ v, s.UploadFile fs path filename [(OptMetadata, OptValue.str v)] =
      s.UploadFile fs path filename []) := by
  have heval := fun o => uploadFile_eval_open s cl fs path filename o file hc hstat hopen
  refine ⟨?_, fun _ => ⟨?_, ?_⟩, fun _ => ⟨?_, ?_⟩, ?_, ?_, ?_⟩
  · rfl
  · simp [buildParams, applyOption, OptACL, ACLPrivate, ACLPublicRead]
  · rw [heval [(OptACL, OptValue.str ACLPrivate)]]
    exact putHead_issues_put cl s path filename _
  · simp [buildParams, applyOption, OptACL, ACLPublicRead]
  · rw [heval [(OptACL, OptValue.str ACLPublicRead)]]
    exact putHead_issues_put cl s path filename _
  · intro k v h1 h2 h3
    have hbp : buildParams s file filename [(k, v)] =
        buildParams s file filename [] := by
      simp [buildParams, applyOption, h1, h2, h3]
    rw [heval [(k, v)], heval [], hbp]
  · intro m
    have hbp : ∀ o, buildParams s file filename o = buildParams s file filename [] →
        s.UploadFile fs path filename o = s.UploadFile fs path filename [] := by
      intro o h
      rw [heval o, heval [], h]
    exact ⟨hbp _ (by simp [buildParams, applyOption]),
      hbp _ (by simp [buildParams, applyOption]),
      hbp _ (by simp [buildParams, applyOption]),
      hbp _ (by simp [buildParams, applyOption]),
      hbp _ (by simp [buildParams, applyOption])⟩
  · intro v
    rw [heval _, heval []]
    rw [show buildParams s file filename [(OptMetadata, OptValue.str v)] =
      buildParams s file filename [] from by
        simp [buildParams, applyOption, OptMetadata, OptACL, OptContentType]]

/-- C6 witness: the two override directions and the silently ignored
options at concrete inputs. -/
theorem C6_option_resolution_witness :
    (buildParams s3SamplePub ⟨"/tmp/p"⟩ "p" [(OptACL, OptValue.str ACLPrivate)]).acl =
      ACL.priv ∧
    (buildParams s3Sample ⟨"/tmp/p"⟩ "p" [(OptACL, OptValue.str ACLPublicRead)]).acl =
      ACL.publicRead ∧
    s3Sample.UploadFile fsGood "/tmp/p" "p" [("x-custom", OptValue.str "v")] =
      s3Sample.UploadFile fsGood "/tmp/p" "p" [] ∧
    s3Sample.UploadFile fsGood "/tmp/p" "p" [(OptACL, OptValue.other)] =
      s3Sample.UploadFile fsGood "/tmp/p" "p" [] := by
  refine ⟨?_, ?_, ?_, ?_⟩
  · exact ((C6_option_resolution s3SamplePub okBackend fsGood "/tmp/p" "p"
      ⟨"/tmp/p"⟩ rfl (by decide) rfl).2.1 rfl).1
  · exact ((C6_option_resolution s3Sample okBackend fsGood "/tmp/p" "p"
      ⟨"/tmp/p"⟩ rfl (by decide) rfl).2.2.1 rfl).1
  · exact (C6_option_resolution s3Sample okBackend fsGood "/tmp/p" "p"
      ⟨"/tmp/p"⟩ rfl (by decide) rfl).2.2.2.1 "x-custom" (OptValue.str "v")
      (by decide) (by decide) (by decide)
  · exact ((C6_option_resolution s3Sample okBackend fsGood "/tmp/p" "p"
      ⟨"/tmp/p"⟩ rfl (by decide) rfl).2.2.2.2.1 []).2.2.1
